import Mathlib

/-!
Shallow embedding of the battle-encounter engine of this repository
(`src/battle/data.py`, `src/battle/patterns.py`, `src/scenes/battle_scene.py`).

Python `int` is modelled by `Int`; Python `float` values that the claims reason
about (timers, the attack pointer ratio, bullet positions and velocities,
growth rates) are modelled by `Rat`.  Randomness (`random.uniform`,
`random.choice`) is modelled by explicit oracle parameters: a random draw
becomes a function argument, so every definition stays a pure function of its
inputs.  Rendering, fonts, sounds and asset loading are outside the model, as
they do not affect any of the state the claims speak about.
-/

/-- `src/battle/data.py` — `PlayerState` (the `speed` field only affects soul
movement, which no claim depends on; it is kept for completeness). -/
structure PlayerState where
  name : String := "莲心"
  hp : Int := 20
  max_hp : Int := 20
  speed : Rat := 290
  deriving Repr, DecidableEq

/-- `src/battle/data.py` — `EnemyState` with its default (spider girl) values. -/
structure EnemyState where
  name : String := "蜘蛛女孩"
  hp : Int := 18
  max_hp : Int := 18
  mind : Int := 45
  max_mind : Int := 100
  bond : Int := 0
  max_bond : Int := 100
  spare_progress : Int := 0
  key_act_done : Bool := false
  deriving Repr, DecidableEq

/-- `src/battle/data.py` — `InventoryItem`. -/
structure InventoryItem where
  name : String
  count : Int
  desc : String
  deriving Repr, DecidableEq

/-- `src/battle/data.py` — the default inventory built by `BattleRuntime`. -/
def default_inventory : List InventoryItem :=
  [⟨"甘露", 2, "回复 5 HP"⟩, ⟨"布条", 1, "用于叩心:递布"⟩]

/-- `src/battle/data.py` — `BattleRuntime`. -/
structure BattleRuntime where
  player : PlayerState := {}
  enemy : EnemyState := {}
  inventory : List InventoryItem := default_inventory
  deriving Repr, DecidableEq

/-- `src/battle/data.py` — `get_item`: first inventory item with the given
name, or `none`. -/
def get_item (rt : BattleRuntime) (name : String) : Option InventoryItem :=
  rt.inventory.find? (fun item => item.name = name)

/-- `src/battle/data.py` — `clamp_enemy_stats`. -/
def clamp_enemy_stats (e : EnemyState) : EnemyState :=
  { e with
    hp := max 0 (min e.max_hp e.hp)
    mind := max 0 (min e.max_mind e.mind)
    bond := max 0 (min e.max_bond e.bond)
    spare_progress := max 0 (min 100 e.spare_progress) }

/-- `src/battle/data.py` — `refresh_spare_progress`: ratchet `spare_progress`
up to `bond`, then clamp all stats. -/
def refresh_spare_progress (e : EnemyState) : EnemyState :=
  clamp_enemy_stats { e with spare_progress := max e.spare_progress e.bond }

/-- `src/battle/data.py` — `EnemyPressureProfile`. -/
structure EnemyPressureProfile where
  corner_base_amount : Int
  corner_growth : Rat
  corner_cap : Int
  top_base_amount : Int
  top_growth : Rat
  top_cap : Int
  size_boost_step_turns : Int
  size_boost_cap : Int
  speed_growth : Rat
  speed_growth_cap : Rat
  deriving Repr, DecidableEq

/-- `src/battle/data.py` — `DEFAULT_PRESSURE_PROFILE`. -/
def DEFAULT_PRESSURE_PROFILE : EnemyPressureProfile :=
  { corner_base_amount := 32
    corner_growth := 18/100
    corner_cap := 72
    top_base_amount := 38
    top_growth := 16/100
    top_cap := 86
    size_boost_step_turns := 2
    size_boost_cap := 6
    speed_growth := 5/100
    speed_growth_cap := 40/100 }

/-- `src/battle/data.py` — the profile stored in `ENEMY_PRESSURE_PROFILES`
under the key `"蜘蛛女孩"` (the spider girl). -/
def SPIDER_GIRL_PROFILE : EnemyPressureProfile :=
  { corner_base_amount := 34
    corner_growth := 20/100
    corner_cap := 78
    top_base_amount := 40
    top_growth := 18/100
    top_cap := 92
    size_boost_step_turns := 2
    size_boost_cap := 6
    speed_growth := 55/1000
    speed_growth_cap := 42/100 }

/-- `src/battle/data.py` — `get_enemy_pressure_profile`: dictionary lookup with
default fallback.  The dictionary has exactly one entry. -/
def get_enemy_pressure_profile (enemy_name : String) : EnemyPressureProfile :=
  if enemy_name = "蜘蛛女孩" then SPIDER_GIRL_PROFILE else DEFAULT_PRESSURE_PROFILE

/-- `src/scenes/battle_scene.py` — `BattleScene._resolve_attack`, the damage
tiers computed from the final pointer ratio `r` (`self.attack_pointer`):
`miss` when `r < 0.08 or r > 0.92`, `perfect` when `0.47 <= r <= 0.53`,
`good` when `0.39 <= r <= 0.61`, otherwise normal. -/
def attack_damage (r : Rat) : Int :=
  if r < 8/100 ∨ 92/100 < r then 0
  else if 47/100 ≤ r ∧ r ≤ 53/100 then 7
  else if 39/100 ≤ r ∧ r ≤ 61/100 then 5
  else 3

/-- `src/scenes/battle_scene.py` — the enemy-state effect of
`BattleScene._resolve_attack`: `enemy.hp -= dmg` followed by
`clamp_enemy_stats(enemy)`. -/
def resolve_attack_enemy (r : Rat) (e : EnemyState) : EnemyState :=
  clamp_enemy_stats { e with hp := e.hp - attack_damage r }

/-- `src/scenes/battle_scene.py` — `BattleScene._resolve_talk` restricted to
its data effect: the branch on the option name mutates `mind`, `bond`,
`key_act_done` and the cloth ("布条") item count, then
`refresh_spare_progress` and `clamp_enemy_stats` run.  The Python `else`
branch (reached by the option "喝止") is the fall-through case here.  Returns
the new enemy state and the new cloth count. -/
def resolve_talk (name : String) (e : EnemyState) (cloth_count : Int) :
    EnemyState × Int :=
  let step :
      EnemyState × Int :=
    if name = "哼唱" then
      ({ e with mind := e.mind - 10, bond := e.bond + 18, key_act_done := true },
        cloth_count)
    else if name = "轻问" then
      ({ e with bond := e.bond + 14 }, cloth_count)
    else if name = "递布" then
      if 0 < cloth_count then
        ({ e with bond := e.bond + 30, mind := e.mind - 5, key_act_done := true },
          cloth_count - 1)
      else (e, cloth_count)
    else
      ({ e with mind := e.mind + 12, bond := e.bond - 8 }, cloth_count)
  (clamp_enemy_stats (refresh_spare_progress step.1), step.2)

/-- `src/scenes/battle_scene.py` — the player-state effect of the "甘露"
branch of `BattleScene._resolve_item`: heal 5 hp, clamped to `max_hp`, and
consume one item. -/
def resolve_item_ganlu (p : PlayerState) (count : Int) : PlayerState × Int :=
  ({ p with hp := min p.max_hp (p.hp + 5) }, count - 1)

/-- Python `int(x)` applied to a float: truncation toward zero, used by
`pygame` when building `Bullet.rect` coordinates. -/
def pytrunc (q : Rat) : Int := if 0 ≤ q then ⌊q⌋ else -⌊-q⌋

/-- Python `round(x)` (banker's rounding: round half to even), used for the
bullet amount in `BattleScene._start_enemy_turn`. -/
def pyround (q : Rat) : Int :=
  if q - ⌊q⌋ < 1/2 then ⌊q⌋
  else if 1/2 < q - ⌊q⌋ then ⌊q⌋ + 1
  else if ⌊q⌋ % 2 = 0 then ⌊q⌋ else ⌊q⌋ + 1

/-- `pygame.Rect`: integer position and size. -/
structure Rect where
  x : Int
  y : Int
  w : Int
  h : Int
  deriving Repr, DecidableEq

/-- `pygame.Rect.colliderect` for the positive-size rectangles this program
uses: the rectangles overlap with nonempty interior intersection. -/
def Rect.colliderect (a b : Rect) : Bool :=
  a.x < b.x + b.w && a.y < b.y + b.h && b.x < a.x + a.w && b.y < a.y + a.h

/-- `pygame.Rect.inflate(ix, iy)`: grow in place around the center, the
position moving by half of each growth amount. -/
def Rect.inflate (a : Rect) (ix iy : Int) : Rect :=
  ⟨a.x - ix / 2, a.y - iy / 2, a.w + ix, a.h + iy⟩

/-- `src/battle/patterns.py` — `Bullet`.  Positions and velocities are 2D
rational vectors. -/
structure Bullet where
  pos : Rat × Rat
  vel : Rat × Rat
  radius : Int
  damage : Int
  color : Int × Int × Int
  deriving Repr, DecidableEq

/-- `src/battle/patterns.py` — the `Bullet.rect` property:
`Rect(int(pos.x - radius), int(pos.y - radius), 2*radius, 2*radius)`. -/
def Bullet.rect (b : Bullet) : Rect :=
  ⟨pytrunc (b.pos.1 - b.radius), pytrunc (b.pos.2 - b.radius),
    2 * b.radius, 2 * b.radius⟩

/-- The four corner anchor points used by `spawn_corner_drops`. -/
def corner_points (box : Rect) : List (Rat × Rat) :=
  [((box.x : Rat) + 8, (box.y : Rat) + 8),
   ((box.x : Rat) + box.w - 8, (box.y : Rat) + 8),
   ((box.x : Rat) + 8, (box.y : Rat) + box.h - 8),
   ((box.x : Rat) + box.w - 8, (box.y : Rat) + box.h - 8)]

/-- `src/battle/patterns.py` — `spawn_corner_drops`.  The random draws of
bullet `i` (position jitter around its corner, and the velocity obtained from
the random target point, random speed and random drift after floating-point
normalization) are supplied by the oracle `rnd i = (position jitter, velocity)`.
Radius 6, damage 2, color (255, 120, 120) are fixed by the source. -/
def spawn_corner_drops (box : Rect) (amount : Nat)
    (rnd : Nat → (Rat × Rat) × (Rat × Rat)) : List Bullet :=
  (List.range amount).map fun i =>
    let c := (corner_points box).getD (i % 4) (0, 0)
    { pos := (c.1 + (rnd i).1.1, c.2 + (rnd i).1.2)
      vel := (rnd i).2
      radius := 6
      damage := 2
      color := (255, 120, 120) }

/-- `src/battle/patterns.py` — `spawn_top_threads`.  The random draws of
bullet `i` (spawn position along the top edge, and the velocity built from the
random horizontal jitter and random downward speed) are supplied by the oracle
`rnd i = (position, velocity)`.  Radius 5, damage 2, color (120, 180, 255) are
fixed by the source. -/
def spawn_top_threads (_box : Rect) (amount : Nat)
    (rnd : Nat → (Rat × Rat) × (Rat × Rat)) : List Bullet :=
  (List.range amount).map fun i =>
    { pos := (rnd i).1
      vel := (rnd i).2
      radius := 5
      damage := 2
      color := (120, 180, 255) }

/-- `src/battle/patterns.py` — the per-bullet position advance at the top of
the `update_bullets` loop: `bullet.pos += bullet.vel * dt`. -/
def advance_bullet (dt : Rat) (b : Bullet) : Bullet :=
  { b with pos := (b.pos.1 + b.vel.1 * dt, b.pos.2 + b.vel.2 * dt) }

/-- `src/battle/patterns.py` — `update_bullets`: advance every bullet, credit
damage and a hit for each bullet colliding with the player rect (removing it),
keep a non-colliding bullet exactly when the box inflated by `(30, 30)` still
collides with its rect, and drop the rest.  Returns
`(damage, hit_count, surviving bullets)`. -/
def update_bullets (bullets : List Bullet) (dt : Rat) (box : Rect)
    (player_rect : Rect) : Int × Int × List Bullet :=
  match bullets with
  | [] => (0, 0, [])
  | b :: rest =>
    let b' := advance_bullet dt b
    let acc := update_bullets rest dt box player_rect
    if b'.rect.colliderect player_rect then
      (b'.damage + acc.1, 1 + acc.2.1, acc.2.2)
    else if (box.inflate 30 30).colliderect b'.rect then
      (acc.1, acc.2.1, b' :: acc.2.2)
    else acc

/-- `src/scenes/battle_scene.py` — `BattleState`. -/
inductive BattleState where
  | OBSERVE
  | PLAYER_MENU
  | PLAYER_ACTION
  | ENEMY_BULLETS
  | FEEDBACK
  deriving Repr, DecidableEq

/-- The terminal outcomes stored in `BattleScene.result`
(`"victory"`, `"defeat"`, `"spared"`). -/
inductive Outcome where
  | victory
  | defeat
  | spared
  deriving Repr, DecidableEq

/-- The control-state projection of `BattleScene`: the fields of the scene
object that the state machine reads and writes.  Rendering-only fields
(images, fonts, shake timers, …) and the bullet list (whose production and
simulation are modelled by the pure functions above) are omitted. -/
structure Scene where
  state : BattleState
  state_timer : Rat
  feedback_to_enemy : Bool
  info_lines : List String
  result : Option Outcome
  player : PlayerState
  enemy : EnemyState
  enemy_turn_count : Int
  hit_cooldown : Rat
  deriving Repr, DecidableEq

/-- `src/scenes/battle_scene.py` — the state initialised by
`BattleScene.__init__`: player hp is `max(1, min(player_max_hp, player_hp))`,
`max_hp` is taken from the caller, the enemy starts from its defaults, the
scene starts in `OBSERVE` with a 0.9 s timer and no result. -/
def battle_scene_init (player_hp player_max_hp : Int) (player_name : String) :
    Scene :=
  { state := .OBSERVE
    state_timer := 9/10
    feedback_to_enemy := false
    info_lines := ["敌意在蛛丝间回响……", "按 Enter 可跳过"]
    result := none
    player := { name := player_name, hp := max 1 (min player_max_hp player_hp),
                max_hp := player_max_hp }
    enemy := {}
    enemy_turn_count := 0
    hit_cooldown := 0 }

/-- `src/scenes/battle_scene.py` — `BattleScene._set_feedback`: enter the
`FEEDBACK` state, arm the 1.2 s feedback delay and record the `go_enemy`
flag. -/
def set_feedback (s : Scene) (lines : List String) (go_enemy : Bool) : Scene :=
  { s with state := .FEEDBACK, state_timer := 6/5, info_lines := lines,
           feedback_to_enemy := go_enemy }

/-- `src/scenes/battle_scene.py` — `BattleScene._enter_player_menu`. -/
def enter_player_menu (s : Scene) : Scene :=
  { s with state := .PLAYER_MENU, info_lines := ["选择你的行动", "←/→ 或点击按钮"] }

/-- `src/scenes/battle_scene.py` — the control-state effect of
`BattleScene._start_enemy_turn`: enter `ENEMY_BULLETS` and increment the turn
counter.  The bullets it spawns are modelled by `start_enemy_turn_bullets`
below and the random phase duration by the dodge-phase timer, neither of which
the feedback-transition claims depend on. -/
def start_enemy_turn_state (s : Scene) : Scene :=
  { s with state := .ENEMY_BULLETS, enemy_turn_count := s.enemy_turn_count + 1 }

/-- `src/scenes/battle_scene.py` — the `main_selected == 3` (Mercy) branch of
`BattleScene._start_selected_action`: if `spare_progress >= 60` and
`key_act_done`, set the terminal result `spared`; otherwise emit the rejection
feedback with `go_enemy=False`. -/
def start_mercy (s : Scene) : Scene :=
  if 60 ≤ s.enemy.spare_progress ∧ s.enemy.key_act_done then
    { s with info_lines := ["童蛛退回蛛网深处……", "你选择了释怀"],
             result := some .spared }
  else
    set_feedback s ["情丝未解，无法释怀", "继续叩心吧"] false

/-- `src/scenes/battle_scene.py` — the `FEEDBACK` branch of
`BattleScene._update`: decrement the timer; on expiry, keep an already-set
terminal result (the run loop then ends the encounter), otherwise declare
`victory` when enemy hp is exhausted, otherwise hand the turn to the enemy or
return to the player menu according to the recorded `go_enemy` flag. -/
def feedback_update (s : Scene) (dt : Rat) : Scene :=
  if s.state = .FEEDBACK then
    let s := { s with state_timer := s.state_timer - dt }
    if s.state_timer ≤ 0 then
      if s.result.isSome then s
      else if s.enemy.hp ≤ 0 then
        { s with info_lines := ["蛛丝散尽", "你赢得了战斗"], result := some .victory }
      else if s.feedback_to_enemy then start_enemy_turn_state s
      else enter_player_menu s
    else s
  else s

/-- `src/scenes/battle_scene.py` — the per-frame damage application of the
`ENEMY_BULLETS` branch of `BattleScene._update`: the cooldown is first
decremented by the frame time (floored at 0); the frame's bullet damage is
applied only when damage is positive and the cooldown has fully elapsed, in
which case hp is reduced (floored at 0) and the cooldown rearmed to 0.22 s.
Takes and returns `(hp, cooldown)`. -/
def dodge_damage_step (hp : Int) (cooldown : Rat) (dt : Rat) (dmg : Int) :
    Int × Rat :=
  let cd := max 0 (cooldown - dt)
  if 0 < dmg ∧ cd ≤ 0 then (max 0 (hp - dmg), 22/100)
  else (hp, cd)

/-- The two bullet-pattern families chosen by `random.choice(("corner", "top"))`
in `BattleScene._start_enemy_turn`. -/
inductive PatternKind where
  | corner
  | top
  deriving Repr, DecidableEq

/-- `src/scenes/battle_scene.py` — `pressure = max(0, self.enemy_turn_count - 1)`
in `BattleScene._start_enemy_turn`. -/
def enemy_turn_pressure (turn_count : Int) : Int := max 0 (turn_count - 1)

/-- `src/scenes/battle_scene.py` — the bullet amount computed by
`BattleScene._start_enemy_turn` for the chosen pattern family:
`min(cap, round(base_amount * (1.0 + pressure * growth)))`. -/
def enemy_turn_amount (p : EnemyPressureProfile) (pat : PatternKind)
    (turn_count : Int) : Int :=
  match pat with
  | .corner =>
    min p.corner_cap
      (pyround ((p.corner_base_amount : Rat) *
        (1 + (enemy_turn_pressure turn_count : Rat) * p.corner_growth)))
  | .top =>
    min p.top_cap
      (pyround ((p.top_base_amount : Rat) *
        (1 + (enemy_turn_pressure turn_count : Rat) * p.top_growth)))

/-- `src/scenes/battle_scene.py` — the escalation applied to each spawned
bullet at the end of `BattleScene._start_enemy_turn`:
`bullet.radius = min(14, bullet.radius + size_boost)` and
`bullet.vel *= speed_scale`, with
`size_boost = min(size_boost_cap, pressure // max(1, size_boost_step_turns))`
and `speed_scale = 1.0 + min(speed_growth_cap, pressure * speed_growth)`. -/
def scale_bullet (p : EnemyPressureProfile) (turn_count : Int) (b : Bullet) :
    Bullet :=
  let pressure := enemy_turn_pressure turn_count
  let step_turns := max 1 p.size_boost_step_turns
  let size_boost := min p.size_boost_cap (pressure / step_turns)
  let speed_scale : Rat := 1 + min p.speed_growth_cap ((pressure : Rat) * p.speed_growth)
  { b with radius := min 14 (b.radius + size_boost)
           vel := (b.vel.1 * speed_scale, b.vel.2 * speed_scale) }

/-- `src/scenes/battle_scene.py` — the bullets produced by one call of
`BattleScene._start_enemy_turn`: spawn `amount` bullets of the chosen family
(`amount` as computed above; `range` over a negative amount spawns none), then
escalate every bullet's radius and speed. -/
def start_enemy_turn_bullets (p : EnemyPressureProfile) (pat : PatternKind)
    (turn_count : Int) (box : Rect) (rnd : Nat → (Rat × Rat) × (Rat × Rat)) :
    List Bullet :=
  let amount := (enemy_turn_amount p pat turn_count).toNat
  (match pat with
   | .corner => spawn_corner_drops box amount rnd
   | .top => spawn_top_threads box amount rnd).map (scale_bullet p turn_count)

/-- A concrete scene sitting in the player menu with `spare_progress = 40`
(and the key act not done), as in the spec's end-to-end Mercy-rejection
scenario. -/
def mercy_reject_scene : Scene :=
  { state := .PLAYER_MENU
    state_timer := 0
    feedback_to_enemy := false
    info_lines := ["选择你的行动", "←/→ 或点击按钮"]
    result := none
    player := {}
    enemy := { spare_progress := 40 }
    enemy_turn_count := 0
    hit_cooldown := 0 }

/-- The enemy state after three consecutive PERFECT attacks (`r = 1/2`) on the
default enemy (hp 18): 18 → 11 → 4 → 0 (the last subtraction clamped at 0). -/
def enemy_after_three_perfects : EnemyState :=
  resolve_attack_enemy (1/2) (resolve_attack_enemy (1/2)
    (resolve_attack_enemy (1/2) {}))

/-- A concrete `FEEDBACK` scene reached after the third PERFECT attack, its
1.2 s delay armed. -/
def victory_feedback_scene : Scene :=
  { state := .FEEDBACK
    state_timer := 6/5
    feedback_to_enemy := true
    info_lines := ["PERFECT! 造成 7 点伤害", "敌人 HP 0/18"]
    result := none
    player := {}
    enemy := enemy_after_three_perfects
    enemy_turn_count := 2
    hit_cooldown := 0 }

/-- A concrete bullet far outside the arena, used for the culling scenario. -/
def far_bullet : Bullet :=
  { pos := (1000, 1000), vel := (0, 0), radius := 5, damage := 2,
    color := (255, 120, 120) }

/-! ## Helper lemmas -/

lemma pyround_floor_le (q : Rat) : ⌊q⌋ ≤ pyround q := by
  unfold pyround; split_ifs <;> omega

lemma pyround_nonneg (q : Rat) (h : 0 ≤ q) : 0 ≤ pyround q := by
  have hf : 0 ≤ ⌊q⌋ := Int.floor_nonneg.mpr h
  have := pyround_floor_le q
  omega

lemma spawn_corner_drops_length (box : Rect) (n : Nat)
    (rnd : Nat → (Rat × Rat) × (Rat × Rat)) :
    (spawn_corner_drops box n rnd).length = n := by
  simp [spawn_corner_drops]

lemma spawn_top_threads_length (box : Rect) (n : Nat)
    (rnd : Nat → (Rat × Rat) × (Rat × Rat)) :
    (spawn_top_threads box n rnd).length = n := by
  simp [spawn_top_threads]

lemma mem_spawn_corner_drops_radius (box : Rect) (n : Nat)
    (rnd : Nat → (Rat × Rat) × (Rat × Rat)) (b : Bullet)
    (hb : b ∈ spawn_corner_drops box n rnd) : b.radius = 6 := by
  simp only [spawn_corner_drops, List.mem_map, List.mem_range] at hb
  obtain ⟨i, -, rfl⟩ := hb
  rfl

lemma mem_spawn_top_threads_radius (box : Rect) (n : Nat)
    (rnd : Nat → (Rat × Rat) × (Rat × Rat)) (b : Bullet)
    (hb : b ∈ spawn_top_threads box n rnd) : b.radius = 5 := by
  simp only [spawn_top_threads, List.mem_map, List.mem_range] at hb
  obtain ⟨i, -, rfl⟩ := hb
  rfl

/-! ## Claim theorems -/

/-- C10: at encounter construction the player's starting hp is
`max(1, min(player_max_hp, player_hp))`, hence positive: the encounter never
starts with the player at 0 hp, whatever hp the caller supplies. -/
theorem init_player_hp_clamped (player_hp player_max_hp : Int) (name : String) :
    (battle_scene_init player_hp player_max_hp name).player.hp
        = max 1 (min player_max_hp player_hp) ∧
      0 < (battle_scene_init player_hp player_max_hp name).player.hp ∧
      (battle_scene_init player_hp player_max_hp name).player.max_hp
        = player_max_hp := by
  refine ⟨rfl, ?_, rfl⟩
  show 0 < max 1 (min player_max_hp player_hp)
  omega

/-- C2: for a final pointer ratio `r ∈ [0, 1]`, the attack damage is exactly 0
in the MISS band (`r < 0.08` or `r > 0.92`), exactly 7 in the PERFECT band
(`0.47 ≤ r ≤ 0.53`), exactly 5 in the remaining GOOD band
(`0.39 ≤ r ≤ 0.61`), and exactly 3 otherwise; the damage is subtracted from
enemy hp and the result clamped to `[0, max_hp]`. -/
theorem attack_damage_tiers (r : Rat) (e : EnemyState) (h0 : 0 ≤ r) (h1 : r ≤ 1) :
    ((r < 8/100 ∨ 92/100 < r) → attack_damage r = 0) ∧
      (47/100 ≤ r ∧ r ≤ 53/100 → attack_damage r = 7) ∧
      (39/100 ≤ r ∧ r ≤ 61/100 ∧ ¬(47/100 ≤ r ∧ r ≤ 53/100) →
        attack_damage r = 5) ∧
      (8/100 ≤ r ∧ r ≤ 92/100 ∧ ¬(39/100 ≤ r ∧ r ≤ 61/100) →
        attack_damage r = 3) ∧
      (resolve_attack_enemy r e).hp
        = max 0 (min e.max_hp (e.hp - attack_damage r)) := by
  refine ⟨?_, ?_, ?_, ?_, rfl⟩
  · intro h
    unfold attack_damage
    rw [if_pos h]
  · rintro ⟨ha, hb⟩
    have hm : ¬(r < 8/100 ∨ 92/100 < r) := by push_neg; constructor <;> linarith
    unfold attack_damage
    rw [if_neg hm, if_pos ⟨ha, hb⟩]
  · rintro ⟨ha, hb, hc⟩
    have hm : ¬(r < 8/100 ∨ 92/100 < r) := by push_neg; constructor <;> linarith
    unfold attack_damage
    rw [if_neg hm, if_neg hc, if_pos ⟨ha, hb⟩]
  · rintro ⟨ha, hb, hc⟩
    have hm : ¬(r < 8/100 ∨ 92/100 < r) := by push_neg; constructor <;> linarith
    have hpf : ¬(47/100 ≤ r ∧ r ≤ 53/100) :=
      fun hx => hc ⟨by linarith [hx.1], by linarith [hx.2]⟩
    unfold attack_damage
    rw [if_neg hm, if_neg hpf, if_neg hc]

/-- Witness for `attack_damage_tiers` at `r = 1/2` on the default enemy. -/
theorem attack_damage_tiers_witness :
    attack_damage (1/2) = 7 ∧
      (resolve_attack_enemy (1/2) {}).hp
        = max 0 (min ({} : EnemyState).max_hp
            (({} : EnemyState).hp - attack_damage (1/2))) :=
  ⟨(attack_damage_tiers (1/2) {} (by norm_num) (by norm_num)).2.1
      (by constructor <;> norm_num),
    (attack_damage_tiers (1/2) {} (by norm_num) (by norm_num)).2.2.2.2⟩

/-- C4: `spare_progress` is a ratchet.  `refresh_spare_progress` sets it to
`max(spare_progress, bond)` clamped to `[0, 100]`, and — as long as the stored
value obeys its `≤ 100` range invariant — none of the operations that touch
the enemy state (`refresh_spare_progress`, `clamp_enemy_stats`, every
persuasion option of `_resolve_talk` including the hostile one that lowers
`bond` by 8, and `_resolve_attack`'s stat clamp) ever lowers it. -/
theorem spare_progress_ratchet_monotone (e : EnemyState)
    (h : e.spare_progress ≤ 100) :
    (refresh_spare_progress e).spare_progress
        = max 0 (min 100 (max e.spare_progress e.bond)) ∧
      e.spare_progress ≤ (refresh_spare_progress e).spare_progress ∧
      e.spare_progress ≤ (clamp_enemy_stats e).spare_progress ∧
      (∀ name cloth_count,
        e.spare_progress ≤ (resolve_talk name e cloth_count).1.spare_progress) ∧
      (∀ r, e.spare_progress ≤ (resolve_attack_enemy r e).spare_progress) := by
  refine ⟨rfl, ?_, ?_, ?_, ?_⟩
  · show e.spare_progress ≤ max 0 (min 100 (max e.spare_progress e.bond))
    omega
  · show e.spare_progress ≤ max 0 (min 100 e.spare_progress)
    omega
  · intro name cloth_count
    unfold resolve_talk
    split_ifs <;>
      simp only [refresh_spare_progress, clamp_enemy_stats] <;> omega
  · intro r
    show e.spare_progress ≤ max 0 (min 100 e.spare_progress)
    omega

/-- Witness for `spare_progress_ratchet_monotone`: the hostile option "喝止"
(bond − 8) does not lower `spare_progress` of the default enemy. -/
theorem spare_progress_ratchet_monotone_witness :
    ({} : EnemyState).spare_progress
      ≤ (resolve_talk "喝止" {} 1).1.spare_progress :=
  (spare_progress_ratchet_monotone {} (by norm_num)).2.2.2.1 "喝止" 1

/-- C5: every hp mutation keeps hp within `[0, max_hp]`: the dodge-phase
bullet-damage application (`max(0, hp - dmg)` with non-negative frame damage),
the "甘露" heal (`min(max_hp, hp + 5)`), and the attack damage to the enemy
(`clamp_enemy_stats` after `hp -= dmg`). -/
theorem hp_in_range_after_mutation (p : PlayerState) (e : EnemyState)
    (cooldown dt r : Rat) (dmg count : Int)
    (hp0 : 0 ≤ p.hp) (hp1 : p.hp ≤ p.max_hp) (hd : 0 ≤ dmg)
    (he0 : 0 ≤ e.hp) (he1 : e.hp ≤ e.max_hp) :
    (0 ≤ (dodge_damage_step p.hp cooldown dt dmg).1 ∧
        (dodge_damage_step p.hp cooldown dt dmg).1 ≤ p.max_hp) ∧
      (0 ≤ (resolve_item_ganlu p count).1.hp ∧
        (resolve_item_ganlu p count).1.hp ≤ p.max_hp) ∧
      (0 ≤ (resolve_attack_enemy r e).hp ∧
        (resolve_attack_enemy r e).hp ≤ e.max_hp) := by
  refine ⟨?_, ?_, ?_⟩
  · simp only [dodge_damage_step]
    split_ifs <;> constructor <;> omega
  · show 0 ≤ min p.max_hp (p.hp + 5) ∧ min p.max_hp (p.hp + 5) ≤ p.max_hp
    omega
  · show (0 ≤ max 0 (min e.max_hp (e.hp - attack_damage r)) ∧
      max 0 (min e.max_hp (e.hp - attack_damage r)) ≤ e.max_hp)
    omega

/-- Witness for `hp_in_range_after_mutation` on the default player and enemy
with frame damage 2. -/
theorem hp_in_range_after_mutation_witness :
    0 ≤ (dodge_damage_step ({} : PlayerState).hp 0 (1/60) 2).1 ∧
      (dodge_damage_step ({} : PlayerState).hp 0 (1/60) 2).1
        ≤ ({} : PlayerState).max_hp :=
  (hp_in_range_after_mutation {} {} 0 (1/60) (1/2) 2 0 (by norm_num)
    (by norm_num) (by norm_num) (by norm_num) (by norm_num)).1

/-- C3: the dodge-phase hit-cooldown policy.  The cooldown is decremented by
the frame time before the check, so frame damage is applied exactly when the
0.22 s window has fully elapsed; an application rearms the cooldown to
0.22 s; a later collision arriving before the window has elapsed leaves hp
unchanged, and the first collision at or past the window's end reduces hp by
the frame's damage. -/
theorem dodge_hit_cooldown_policy (hp : Int) (cooldown dt dt2 : Rat)
    (dmg dmg2 : Int) :
    (0 < cooldown - dt →
        (dodge_damage_step hp cooldown dt dmg).1 = hp ∧
          (dodge_damage_step hp cooldown dt dmg).2 = cooldown - dt) ∧
      (cooldown - dt ≤ 0 → 0 < dmg →
        (dodge_damage_step hp cooldown dt dmg).1 = max 0 (hp - dmg) ∧
          (dodge_damage_step hp cooldown dt dmg).2 = 22/100) ∧
      (cooldown - dt ≤ 0 → 0 < dmg → dmg ≤ hp →
        (dodge_damage_step hp cooldown dt dmg).1 = hp - dmg) ∧
      (cooldown - dt ≤ 0 → 0 < dmg → dt2 < 22/100 →
        (dodge_damage_step (dodge_damage_step hp cooldown dt dmg).1
            (dodge_damage_step hp cooldown dt dmg).2 dt2 dmg2).1
          = max 0 (hp - dmg)) := by
  have happly : cooldown - dt ≤ 0 → 0 < dmg →
      dodge_damage_step hp cooldown dt dmg = (max 0 (hp - dmg), 22/100) := by
    intro hcd hdmg
    unfold dodge_damage_step
    rw [if_pos ⟨hdmg, by simpa using hcd⟩]
  refine ⟨?_, ?_, ?_, ?_⟩
  · intro hcd
    have hmax : max 0 (cooldown - dt) = cooldown - dt :=
      max_eq_right (le_of_lt hcd)
    have hnot : ¬(0 < dmg ∧ max 0 (cooldown - dt) ≤ 0) := by
      rintro ⟨-, hle⟩
      rw [hmax] at hle
      linarith
    unfold dodge_damage_step
    rw [if_neg hnot, hmax]
    exact ⟨rfl, rfl⟩
  · intro hcd hdmg
    rw [happly hcd hdmg]
    exact ⟨rfl, rfl⟩
  · intro hcd hdmg hle
    rw [happly hcd hdmg]
    show max 0 (hp - dmg) = hp - dmg
    omega
  · intro hcd hdmg hdt2
    rw [happly hcd hdmg]
    have hnot : ¬(0 < dmg2 ∧ max 0 ((22:Rat)/100 - dt2) ≤ 0) := by
      rintro ⟨-, hle⟩
      have h1 : (0:Rat) < 22/100 - dt2 := by linarith
      have h2 : (22:Rat)/100 - dt2 ≤ max 0 (22/100 - dt2) := le_max_right _ _
      linarith
    unfold dodge_damage_step
    rw [if_neg hnot]

/-- Witness for `dodge_hit_cooldown_policy`: hp 20, a 2-damage hit applied at
an expired cooldown, then a second 2-damage collision one frame (1/60 s)
later is suppressed: hp stays at `max 0 (20 - 2) = 18`. -/
theorem dodge_hit_cooldown_policy_witness :
    (dodge_damage_step (dodge_damage_step 20 0 (1/60) 2).1
        (dodge_damage_step 20 0 (1/60) 2).2 (1/60) 2).1 = max 0 (20 - 2) :=
  (dodge_hit_cooldown_policy 20 0 (1/60) (1/60) 2 2).2.2.2 (by norm_num)
    (by norm_num) (by norm_num)


/-- C1 counterexample: committing Mercy from the player menu with
`spare_progress = 40` does reject the action, but the phase does *not* remain
`PLAYER_MENU`: `_set_feedback` moves the machine to `FEEDBACK` (for the 1.2 s
message delay) before it returns to the menu. -/
theorem mercy_rejection_phase_counterexample :
    (start_mercy mercy_reject_scene).state = .FEEDBACK ∧
      ¬((start_mercy mercy_reject_scene).state = .PLAYER_MENU) := by
  have h : start_mercy mercy_reject_scene
      = set_feedback mercy_reject_scene ["情丝未解，无法释怀", "继续叩心吧"] false := by
    unfold start_mercy
    rw [if_neg]
    rintro ⟨h40, -⟩
    norm_num [mercy_reject_scene] at h40
  rw [h]
  exact ⟨rfl, by simp [set_feedback]⟩

/-- C1 (amended): committing Mercy from the player menu resolves to the
terminal outcome `spared` iff `spare_progress ≥ 60` and `key_act_done`; the
successful case changes no stats and no phase.  Otherwise the action is
rejected with the explanatory message, no player or enemy stat changes and no
result; the machine shows the message in the `FEEDBACK` phase with
`go_enemy = false`, so when the feedback delay expires it returns to
`PLAYER_MENU` (the enemy never gets a turn from a rejected Mercy). -/
theorem mercy_gate (s : Scene) (hres : s.result = none) :
    ((start_mercy s).result = some .spared ↔
        60 ≤ s.enemy.spare_progress ∧ s.enemy.key_act_done = true) ∧
      (60 ≤ s.enemy.spare_progress ∧ s.enemy.key_act_done = true →
        (start_mercy s).state = s.state ∧ (start_mercy s).player = s.player ∧
          (start_mercy s).enemy = s.enemy) ∧
      (¬(60 ≤ s.enemy.spare_progress ∧ s.enemy.key_act_done = true) →
        (start_mercy s).result = none ∧ (start_mercy s).player = s.player ∧
          (start_mercy s).enemy = s.enemy ∧
          (start_mercy s).state = .FEEDBACK ∧
          (start_mercy s).feedback_to_enemy = false ∧
          (start_mercy s).info_lines = ["情丝未解，无法释怀", "继续叩心吧"] ∧
          (∀ dt, 0 < s.enemy.hp → (start_mercy s).state_timer - dt ≤ 0 →
            (feedback_update (start_mercy s) dt).state = .PLAYER_MENU)) := by
  by_cases hc : 60 ≤ s.enemy.spare_progress ∧ s.enemy.key_act_done = true
  · have h : start_mercy s
        = { s with info_lines := ["童蛛退回蛛网深处……", "你选择了释怀"],
                   result := some .spared } := by
      unfold start_mercy
      rw [if_pos]
      exact ⟨hc.1, by simpa using hc.2⟩
    rw [h]
    refine ⟨by simpa using hc, fun _ => ⟨rfl, rfl, rfl⟩, fun hn => absurd hc hn⟩
  · have h : start_mercy s
        = set_feedback s ["情丝未解，无法释怀", "继续叩心吧"] false := by
      unfold start_mercy
      rw [if_neg]
      intro hx
      exact hc ⟨hx.1, by simpa using hx.2⟩
    rw [h]
    refine ⟨?_, fun hx => absurd hx hc, fun _ => ?_⟩
    · simp only [set_feedback, hres]
      constructor
      · intro hfalse
        exact absurd hfalse (by simp)
      · intro hx
        exact absurd hx hc
    · refine ⟨hres, rfl, rfl, rfl, rfl, rfl, ?_⟩
      intro dt hhp ht
      simp only [set_feedback] at ht ⊢
      simp [feedback_update, ht, hres, enter_player_menu, not_le.mpr hhp]

/-- Witness for `mercy_gate` at the concrete `spare_progress = 40` scene: the
rejection keeps all stats, sets no result, and shows the feedback message. -/
theorem mercy_gate_witness :
    (start_mercy mercy_reject_scene).result = none ∧
      (start_mercy mercy_reject_scene).state = .FEEDBACK ∧
      (start_mercy mercy_reject_scene).enemy = mercy_reject_scene.enemy :=
  have h := (mercy_gate mercy_reject_scene rfl).2.2
    (by norm_num [mercy_reject_scene])
  ⟨h.1, h.2.2.2.1, h.2.2.1⟩

/-- C6: when the `FEEDBACK` delay expires the machine decides, in order: an
already-set terminal result is kept (the run loop then ends the encounter);
otherwise enemy hp ≤ 0 yields the `victory` result; otherwise `go_enemy=true`
feedback moves to `ENEMY_BULLETS`; otherwise back to `PLAYER_MENU`.  In
particular three PERFECT attacks take the default enemy from hp 18 to 0 and
the next feedback expiry yields `victory`. -/
theorem feedback_expiry_decision (s : Scene) (dt : Rat)
    (hs : s.state = .FEEDBACK) (ht : s.state_timer - dt ≤ 0) :
    (∀ o, s.result = some o →
        (feedback_update s dt).result = some o ∧
          (feedback_update s dt).state = .FEEDBACK) ∧
      (s.result = none → s.enemy.hp ≤ 0 →
        (feedback_update s dt).result = some .victory) ∧
      (s.result = none → 0 < s.enemy.hp → s.feedback_to_enemy = true →
        (feedback_update s dt).state = .ENEMY_BULLETS ∧
          (feedback_update s dt).result = none) ∧
      (s.result = none → 0 < s.enemy.hp → s.feedback_to_enemy = false →
        (feedback_update s dt).state = .PLAYER_MENU ∧
          (feedback_update s dt).result = none) ∧
      enemy_after_three_perfects.hp = 0 ∧
      (feedback_update victory_feedback_scene (6/5)).result = some .victory := by
  have hp3 : enemy_after_three_perfects.hp = 0 := by
    norm_num [enemy_after_three_perfects, resolve_attack_enemy, attack_damage,
      clamp_enemy_stats]
  refine ⟨?_, ?_, ?_, ?_, hp3, ?_⟩
  · intro o ho
    simp [feedback_update, hs, ht, ho]
  · intro h0 hle
    simp [feedback_update, hs, ht, h0, hle]
  · intro h0 hhp hgo
    simp [feedback_update, hs, ht, h0, hgo, not_le.mpr hhp,
      start_enemy_turn_state]
  · intro h0 hhp hgo
    simp [feedback_update, hs, ht, h0, hgo, not_le.mpr hhp, enter_player_menu]
  · simp [feedback_update, victory_feedback_scene, hp3]

/-- Witness for `feedback_expiry_decision`: the concrete post-third-PERFECT
feedback scene resolves to `victory` on expiry. -/
theorem feedback_expiry_decision_witness :
    (feedback_update victory_feedback_scene (6/5)).result = some .victory :=
  (feedback_expiry_decision victory_feedback_scene (6/5) rfl
    (by norm_num [victory_feedback_scene])).2.2.2.2.2

/-- C7: the bullet count generated at the start of an enemy phase is exactly
`min(cap, round(base_amount * (1 + pressure * growth_rate)))` with
`pressure = max(0, turn_count - 1)` for the chosen family, and hence never
exceeds the family's cap.  (The growth formula needs the profile's base
amount, growth rate and cap to be non-negative, which holds for every profile
of the repository.) -/
theorem enemy_turn_bullet_amount (p : EnemyPressureProfile) (pat : PatternKind)
    (turn_count : Int) (box : Rect) (rnd : Nat → (Rat × Rat) × (Rat × Rat))
    (ht : 1 ≤ turn_count)
    (hcb : 0 ≤ p.corner_base_amount) (hcg : 0 ≤ p.corner_growth)
    (hcc : 0 ≤ p.corner_cap) (htb : 0 ≤ p.top_base_amount)
    (htg : 0 ≤ p.top_growth) (htc : 0 ≤ p.top_cap) :
    ((start_enemy_turn_bullets p pat turn_count box rnd).length : Int)
        = enemy_turn_amount p pat turn_count ∧
      enemy_turn_amount p pat turn_count
        = (match pat with
           | PatternKind.corner =>
             min p.corner_cap (pyround ((p.corner_base_amount : Rat) *
               (1 + (max 0 (turn_count - 1) : Int) * p.corner_growth)))
           | PatternKind.top =>
             min p.top_cap (pyround ((p.top_base_amount : Rat) *
               (1 + (max 0 (turn_count - 1) : Int) * p.top_growth)))) ∧
      enemy_turn_amount p pat turn_count
        ≤ (match pat with
           | PatternKind.corner => p.corner_cap
           | PatternKind.top => p.top_cap) := by
  have hpr : (0:Rat) ≤ ((enemy_turn_pressure turn_count : Int) : Rat) := by
    have h0 : (0:Int) ≤ enemy_turn_pressure turn_count := le_max_left 0 _
    exact_mod_cast h0
  cases pat with
  | corner =>
    have hx : (0:Rat) ≤ (p.corner_base_amount : Rat) *
        (1 + ((enemy_turn_pressure turn_count : Int) : Rat) * p.corner_growth) :=
      mul_nonneg (by exact_mod_cast hcb)
        (add_nonneg zero_le_one (mul_nonneg hpr hcg))
    have hnn : 0 ≤ enemy_turn_amount p PatternKind.corner turn_count :=
      le_min hcc (pyround_nonneg _ hx)
    refine ⟨?_, rfl, min_le_left _ _⟩
    simp only [start_enemy_turn_bullets, List.length_map,
      spawn_corner_drops_length]
    exact Int.toNat_of_nonneg hnn
  | top =>
    have hx : (0:Rat) ≤ (p.top_base_amount : Rat) *
        (1 + ((enemy_turn_pressure turn_count : Int) : Rat) * p.top_growth) :=
      mul_nonneg (by exact_mod_cast htb)
        (add_nonneg zero_le_one (mul_nonneg hpr htg))
    have hnn : 0 ≤ enemy_turn_amount p PatternKind.top turn_count :=
      le_min htc (pyround_nonneg _ hx)
    refine ⟨?_, rfl, min_le_left _ _⟩
    simp only [start_enemy_turn_bullets, List.length_map,
      spawn_top_threads_length]
    exact Int.toNat_of_nonneg hnn

/-- Witness for `enemy_turn_bullet_amount`: the spider-girl profile at turn 3
(pressure 2) spawns `min(78, round(34 * 1.4)) = 48` corner bullets. -/
theorem enemy_turn_bullet_amount_witness :
    ((start_enemy_turn_bullets SPIDER_GIRL_PROFILE PatternKind.corner 3
          ⟨0, 0, 100, 100⟩ (fun _ => ((0, 0), (0, 0)))).length : Int)
        = enemy_turn_amount SPIDER_GIRL_PROFILE PatternKind.corner 3 ∧
      enemy_turn_amount SPIDER_GIRL_PROFILE PatternKind.corner 3 = 48 :=
  ⟨(enemy_turn_bullet_amount SPIDER_GIRL_PROFILE PatternKind.corner 3
      ⟨0, 0, 100, 100⟩ (fun _ => ((0, 0), (0, 0))) (by norm_num)
      (by norm_num [SPIDER_GIRL_PROFILE]) (by norm_num [SPIDER_GIRL_PROFILE])
      (by norm_num [SPIDER_GIRL_PROFILE]) (by norm_num [SPIDER_GIRL_PROFILE])
      (by norm_num [SPIDER_GIRL_PROFILE])
      (by norm_num [SPIDER_GIRL_PROFILE])).1,
    by norm_num [enemy_turn_amount, enemy_turn_pressure, pyround,
      SPIDER_GIRL_PROFILE]⟩

/-- C8: the escalation step of `_start_enemy_turn`.  For a profile whose
`size_boost_step_turns` is at least 1 (true of every profile in the
repository, so the source's `max(1, ·)` guard is inert), each bullet's radius
becomes `min(14, radius + min(size_boost_cap, pressure // step_turns))` —
never exceeding 14 — and its velocity is multiplied by
`1 + min(speed_growth_cap, pressure * speed_growth)`, with
`pressure = max(0, turn_count - 1)`; every bullet produced for an enemy phase
is such a scaled spawn bullet. -/
theorem enemy_turn_bullet_escalation (p : EnemyPressureProfile)
    (turn_count : Int) (b0 : Bullet) (hstep : 1 ≤ p.size_boost_step_turns) :
    (scale_bullet p turn_count b0).radius
        = min 14 (b0.radius + min p.size_boost_cap
            (max 0 (turn_count - 1) / p.size_boost_step_turns)) ∧
      (scale_bullet p turn_count b0).radius ≤ 14 ∧
      (scale_bullet p turn_count b0).vel
        = (b0.vel.1 * (1 + min p.speed_growth_cap
              ((max 0 (turn_count - 1) : Int) * p.speed_growth)),
           b0.vel.2 * (1 + min p.speed_growth_cap
              ((max 0 (turn_count - 1) : Int) * p.speed_growth))) ∧
      (∀ pat box rnd, start_enemy_turn_bullets p pat turn_count box rnd
          = ((match pat with
              | PatternKind.corner =>
                spawn_corner_drops box
                  (enemy_turn_amount p pat turn_count).toNat rnd
              | PatternKind.top =>
                spawn_top_threads box
                  (enemy_turn_amount p pat turn_count).toNat rnd).map
              (scale_bullet p turn_count))) ∧
      (∀ pat box rnd b, b ∈ start_enemy_turn_bullets p pat turn_count box rnd →
        b.radius ≤ 14) := by
  have hmax : max 1 p.size_boost_step_turns = p.size_boost_step_turns :=
    max_eq_right hstep
  refine ⟨?_, min_le_left _ _, rfl, ?_, ?_⟩
  · simp only [scale_bullet, enemy_turn_pressure, hmax]
  · intro pat box rnd
    cases pat <;> rfl
  · intro pat box rnd b hb
    simp only [start_enemy_turn_bullets, List.mem_map] at hb
    obtain ⟨b1, -, rfl⟩ := hb
    exact min_le_left _ _

/-- Witness for `enemy_turn_bullet_escalation`: the spider-girl profile at
turn 1 (pressure 0) leaves a radius-6 bullet at radius 6 ≤ 14. -/
theorem enemy_turn_bullet_escalation_witness :
    (scale_bullet SPIDER_GIRL_PROFILE 1 far_bullet).radius ≤ 14 :=
  (enemy_turn_bullet_escalation SPIDER_GIRL_PROFILE 1 far_bullet
    (by norm_num [SPIDER_GIRL_PROFILE])).2.1

lemma update_bullets_alive_characterization (bullets : List Bullet) (dt : Rat)
    (box player_rect : Rect) :
    (update_bullets bullets dt box player_rect).2.2
      = (bullets.map (advance_bullet dt)).filter
          (fun x => !(x.rect.colliderect player_rect) &&
            (box.inflate 30 30).colliderect x.rect) := by
  induction bullets with
  | nil => rfl
  | cons b rest ih =>
    simp only [update_bullets, List.map_cons, List.filter_cons]
    by_cases h1 : (advance_bullet dt b).rect.colliderect player_rect
    · simp [h1, ih]
    · by_cases h2 :
        (box.inflate 30 30).colliderect (advance_bullet dt b).rect
      · simp [h1, h2, ih]
      · simp [h1, h2, ih]

lemma colliderect_of_inflate30 (box r : Rect)
    (h : (box.inflate 30 30).colliderect r = true) :
    (Rect.colliderect ⟨box.x - 30, box.y - 30, box.w + 60, box.h + 60⟩ r)
      = true := by
  simp only [Rect.colliderect, Rect.inflate, Bool.and_eq_true,
    decide_eq_true_eq] at h ⊢
  omega

/-- C9: in one `update_bullets` call, after positions advance by
`velocity × dt`, the surviving list is exactly the advanced bullets that miss
the player and whose hitbox still collides with the arena rectangle inflated
by the 30-unit margin (`box.inflate(30, 30)`); a non-colliding bullet is
retained iff that inflated-box test holds, and a bullet whose hitbox lies
entirely outside the arena rectangle enlarged by 30 units on every side is
removed within the call. -/
theorem update_bullets_culling (bullets : List Bullet) (dt : Rat)
    (box player_rect : Rect) (b : Bullet) :
    ((update_bullets bullets dt box player_rect).2.2
        = (bullets.map (advance_bullet dt)).filter
            (fun x => !(x.rect.colliderect player_rect) &&
              (box.inflate 30 30).colliderect x.rect)) ∧
      (b ∈ bullets.map (advance_bullet dt) →
        b.rect.colliderect player_rect = false →
        (b ∈ (update_bullets bullets dt box player_rect).2.2 ↔
          (box.inflate 30 30).colliderect b.rect = true)) ∧
      ((Rect.colliderect ⟨box.x - 30, box.y - 30, box.w + 60, box.h + 60⟩
            b.rect) = false →
        b ∉ (update_bullets bullets dt box player_rect).2.2) := by
  have hchar := update_bullets_alive_characterization bullets dt box player_rect
  refine ⟨hchar, ?_, ?_⟩
  · intro hmem hmiss
    rw [hchar]
    constructor
    · intro hin
      have := (List.mem_filter.mp hin).2
      simp only [Bool.and_eq_true, Bool.not_eq_true'] at this
      exact this.2
    · intro hbox
      exact List.mem_filter.mpr ⟨hmem, by simp [hmiss, hbox]⟩
  · intro hfar hin
    rw [hchar] at hin
    have hp := (List.mem_filter.mp hin).2
    simp only [Bool.and_eq_true, Bool.not_eq_true'] at hp
    have := colliderect_of_inflate30 box b.rect hp.2
    rw [hfar] at this
    exact Bool.false_ne_true this

/-- Witness for `update_bullets_culling`: a stationary bullet at (1000, 1000)
lies entirely outside the 100×100 arena enlarged by 30 units on every side and
is removed by one update call. -/
theorem update_bullets_culling_witness :
    advance_bullet 1 far_bullet
      ∉ (update_bullets [far_bullet] 1 ⟨0, 0, 100, 100⟩ ⟨40, 40, 10, 10⟩).2.2 :=
  (update_bullets_culling [far_bullet] 1 ⟨0, 0, 100, 100⟩ ⟨40, 40, 10, 10⟩
      (advance_bullet 1 far_bullet)).2.2
    (by norm_num [advance_bullet, far_bullet, Bullet.rect, pytrunc,
      Rect.colliderect])
